import Mathlib

/-!
Verification development for the interview session orchestrator
(`InterviewAgent` in the agent module of the repository).

The Python agent is shallowly embedded: its mutable object state becomes an
explicit `AgentState` record threaded through pure functions; `datetime`
values become `Nat` seconds; collaborator services (question bank, response
evaluator, feedback generator, interview persistence service) become a record
of pure, possibly-failing (`Except`) functions; a Python `try/except` around a
collaborator call becomes a `match` on the `Except` result.  Persistence calls
are recorded in an explicit write log so that "exactly one write" properties
can be stated.  String constants follow the source with apostrophes elided.
-/

namespace TTS

/-- Interview session states, from the `InterviewState` enum. -/
inductive InterviewState
  | initializing
  | greeting
  | questioning
  | evaluating
  | concluding
  | completed
  | error
  deriving DecidableEq, Repr

/-- A question record appended by `_ask_next_question` (dict in the source). -/
structure QuestionRecord where
  question : String
  qtype : String
  difficulty : String
  timestamp : Nat
  index : Nat
  deriving DecidableEq, Repr

/-- A response record appended by `_evaluate_response` (dict in the source). -/
structure ResponseRecord where
  response : String
  question_index : Nat
  timestamp : Nat
  question_type : String
  deriving DecidableEq, Repr

/-- The mutable progress dataclass `InterviewProgress`. -/
structure InterviewProgress where
  current_question_index : Nat := 0
  questions_asked : List QuestionRecord := []
  responses_received : List ResponseRecord := []
  start_time : Option Nat := none
  last_activity : Option Nat := none
  state : InterviewState := InterviewState.initializing
  deriving DecidableEq, Repr

/-- Evaluation result produced by the external response evaluator. -/
structure EvaluationResult where
  score : Nat
  strengths : List String
  weaknesses : List String
  specific_feedback : String
  suggestions : List String
  deriving DecidableEq, Repr

/-- Final feedback payload produced by the feedback generator at conclusion. -/
structure FinalFeedback where
  overall_rating : String
  strengths : List String
  improvements : List String
  deriving DecidableEq, Repr

/-- A question as returned by the question bank (`get_next_question`). -/
structure QuestionData where
  question : String
  qtype : String
  difficulty : Option String
  deriving DecidableEq, Repr

/-- Payload attached to a status update (`data` argument of
`_update_interview_status`). -/
inductive StatusData
  | completedData (feedback : FinalFeedback)
  | incompleteData (reason : String) (questions_completed : Nat)
      (responses_completed : Nat) (duration_minutes : Nat)
  | errorData (error_type : String) (error_message : String) (timestamp : Nat)
  deriving DecidableEq, Repr

/-- A status write that reached the persistence service.  All four status
kinds of the external contract are representable; which ones the code can
actually emit is determined by `update_interview_status` below. -/
inductive StatusWrite
  | started
  | completedW (data : Option StatusData)
  | incompleteW (data : Option StatusData)
  | errorW (data : Option StatusData)
  deriving DecidableEq, Repr

/-- The external collaborators (question bank, evaluator, feedback generator,
interview service).  Each call the agent awaits is a pure function that may
fail with `Except.error`, modelling a raised exception.  Session-constant
context the source passes along (target role, experience level, interview
config) is considered captured inside these functions. -/
structure Collaborators where
  /-- `question_bank.get_next_question(current_index, previous_responses, resume)`:
  may raise, may return `None`. -/
  get_next_question : Nat → List ResponseRecord → Except String (Option QuestionData)
  /-- `question_bank.get_total_available_questions()`. -/
  total_available_questions : Nat
  /-- `evaluator.evaluate_response(question, response, question_type, context)`;
  the final `Nat` is the `interview_progress` count passed in the context. -/
  evaluate : String → String → String → Nat → Except String EvaluationResult
  /-- `feedback_generator.generate_response_feedback(evaluation, is_early_interview)`. -/
  response_feedback : EvaluationResult → Bool → Except String String
  /-- `feedback_generator.generate_final_feedback(questions, responses, duration)`. -/
  final_feedback : List QuestionRecord → List ResponseRecord → Nat → Except String FinalFeedback
  /-- `interview_service.start_session(session_id)`. -/
  start_session : Except String Unit
  /-- `interview_service.complete_session(session_id, data)`. -/
  complete_session : Option StatusData → Except String Unit
  /-- `interview_service.save_progress(session_id, progress_data)`. -/
  save_progress : Except String Unit

/-- Application settings referenced by `_should_continue_interview`. -/
structure Settings where
  MAX_QUESTIONS_PER_INTERVIEW : Nat
  MIN_QUESTIONS_PER_INTERVIEW : Nat
  deriving DecidableEq, Repr

/-- The per-session interview configuration dict; `none` models a missing
key, resolved with the same defaults the source passes to `config.get`. -/
structure InterviewConfig where
  max_questions : Option Nat := none
  min_questions : Option Nat := none
  duration : Option Nat := none
  deriving DecidableEq, Repr

/-- The whole mutable agent object: progress, the outstanding question,
the waiting flag, and the log of persistence calls that succeeded
(`status_writes` for `_update_interview_status`, `progress_saves` counting
successful `save_progress` calls). -/
structure AgentState where
  progress : InterviewProgress := {}
  current_question : Option QuestionRecord := none
  waiting_for_response : Bool := false
  status_writes : List StatusWrite := []
  progress_saves : Nat := 0
  deriving DecidableEq, Repr

/-- `_get_interview_duration`: elapsed whole minutes since `start_time`,
`0` when the interview has not started.  Time is in seconds. -/
def get_interview_duration (now : Nat) (p : InterviewProgress) : Nat :=
  match p.start_time with
  | none => 0
  | some t => (now - t) / 60

/-- `_should_continue_interview`.  The literal `1.2` time multiplier is
modelled exactly as the rational `6 / 5`:
`duration_minutes < target_duration * 1.2` becomes
`5 * duration_minutes < 6 * target_duration`. -/
def should_continue_interview (s : Settings) (cfg : InterviewConfig)
    (c : Collaborators) (now : Nat) (p : InterviewProgress) : Bool :=
  let max_questions :=
    min (cfg.max_questions.getD s.MAX_QUESTIONS_PER_INTERVIEW)
      c.total_available_questions
  let min_questions :=
    max (cfg.min_questions.getD s.MIN_QUESTIONS_PER_INTERVIEW) 3
  let questions_asked := p.questions_asked.length
  if questions_asked < min_questions then
    true
  else if max_questions ≤ questions_asked then
    false
  else
    let duration_minutes := get_interview_duration now p
    let target_duration := cfg.duration.getD 30
    decide (5 * duration_minutes < 6 * target_duration)

/-- `_update_interview_status(status, data)`: dispatches on the status
string.  Exactly as in the source, only the strings "started" and
"completed" reach the persistence service; every other status (including
"incomplete" and "error") falls through both branches and performs no
service call.  A service failure is caught by the surrounding
`try/except` and leaves the log unchanged. -/
def update_interview_status (c : Collaborators) (writes : List StatusWrite)
    (status : String) (data : Option StatusData) : List StatusWrite :=
  if status = "started" then
    match c.start_session with
    | Except.ok _ => writes ++ [StatusWrite.started]
    | Except.error _ => writes
  else if status = "completed" then
    match c.complete_session data with
    | Except.ok _ => writes ++ [StatusWrite.completedW data]
    | Except.error _ => writes
  else
    writes

/-- `_save_interview_progress`: snapshots progress to the service; its
internal `try/except` swallows failures. -/
def save_interview_progress (c : Collaborators) (a : AgentState) : AgentState :=
  match c.save_progress with
  | Except.ok _ => { a with progress_saves := a.progress_saves + 1 }
  | Except.error _ => a

/-- Fallback returned by `_ask_next_question` when anything in its body
raises (apostrophes elided). -/
def question_filler_msg : String :=
  "I apologize, let me think of an appropriate question for you."

/-- Rejection message of `_evaluate_response` (apostrophes elided). -/
def didnt_catch_msg : String :=
  "I did not catch your response clearly. Could you please repeat that?"

/-- Fallback returned by `_evaluate_response` when the evaluator or the
feedback generator raises (apostrophes elided). -/
def generic_ack_msg : String :=
  "Thank you for that response. Let us continue with the next question."

/-- Fallback returned by `_conclude_interview` when its body raises. -/
def conclude_fallback_msg : String :=
  "Thank you for the interview! You will receive detailed feedback shortly."

/-- `_format_feedback_list`: bullets for the top three items. -/
def format_feedback_list (items : List String) : String :=
  if items.isEmpty then
    "• None identified"
  else
    String.intercalate "\n" ((items.take 3).map (fun item => "• " ++ item))

/-- The conclusion summary string returned by `_conclude_interview`. -/
def conclusion_text (p : InterviewProgress) (dur : Nat) (ff : FinalFeedback) : String :=
  "Thank you for participating in this mock interview! You did a great job.\n\n" ++
  "## Quick Summary:\n- Questions covered: " ++ toString p.questions_asked.length ++
  "\n- Interview duration: " ++ toString dur ++ " minutes\n- Overall performance: " ++
  ff.overall_rating ++ "\n\n## Key Strengths:\n" ++ format_feedback_list ff.strengths ++
  "\n\n## Areas for Improvement:\n" ++ format_feedback_list ff.improvements ++
  "\n\nYou will receive a detailed written report with specific recommendations." ++
  " Best of luck with your job search!"

/-- `_conclude_interview`: sets CONCLUDING, generates final feedback,
performs the "completed" status update, sets COMPLETED, and returns the
summary.  If feedback generation raises, the `except` branch returns the
fallback string with the state left at CONCLUDING and no status write. -/
def conclude_interview (c : Collaborators) (now : Nat) (a : AgentState) :
    String × AgentState :=
  let p1 := { a.progress with state := InterviewState.concluding }
  let a1 := { a with progress := p1 }
  match c.final_feedback p1.questions_asked p1.responses_received
      (get_interview_duration now p1) with
  | Except.error _ => (conclude_fallback_msg, a1)
  | Except.ok ff =>
    let writes := update_interview_status c a1.status_writes "completed"
      (some (StatusData.completedData ff))
    let a2 := { a1 with
      status_writes := writes,
      progress := { a1.progress with state := InterviewState.completed } }
    (conclusion_text a2.progress (get_interview_duration now a2.progress) ff, a2)

/-- The prompt string returned by a successful `_ask_next_question`. -/
def ask_question_reply (q : String) : String :=
  "Here is your next question:\n\n" ++ q ++
  "\n\nTake your time to think through your response."

/-- The question record dict built by `_ask_next_question` (difficulty
defaults to "medium", the index is the pre-increment current index). -/
def mk_question_record (qd : QuestionData) (now idx : Nat) : QuestionRecord :=
  { question := qd.question,
    qtype := qd.qtype,
    difficulty := qd.difficulty.getD "medium",
    timestamp := now,
    index := idx }

/-- `_ask_next_question`: consults the continuation policy first, then the
question bank; on success appends the question record, advances the index,
sets QUESTIONING, saves progress, and returns the prompt.  Any exception in
the body is caught and turned into the filler message with no mutation. -/
def ask_next_question (s : Settings) (cfg : InterviewConfig) (c : Collaborators)
    (now : Nat) (a : AgentState) : String × AgentState :=
  if ¬ should_continue_interview s cfg c now a.progress then
    conclude_interview c now a
  else
    match c.get_next_question a.progress.current_question_index
        a.progress.responses_received with
    | Except.error _ => (question_filler_msg, a)
    | Except.ok none => conclude_interview c now a
    | Except.ok (some qd) =>
      let qr := mk_question_record qd now a.progress.current_question_index
      let p1 := { a.progress with
        questions_asked := a.progress.questions_asked ++ [qr],
        current_question_index := a.progress.current_question_index + 1,
        state := InterviewState.questioning }
      let a1 := { a with
        progress := p1,
        current_question := some qr,
        waiting_for_response := true }
      (ask_question_reply qd.question, save_interview_progress c a1)

/-- The Python truthiness test `not response.strip()`: true exactly when
every character of the response is whitespace, that is, the stripped
response is the empty string. -/
def is_blank (s : String) : Bool :=
  s.toList.all Char.isWhitespace

/-- The response record dict built by `_evaluate_response`. -/
def mk_response_record (response : String) (cq : QuestionRecord) (now : Nat) :
    ResponseRecord :=
  { response := response,
    question_index := cq.index,
    timestamp := now,
    question_type := cq.qtype }

/-- `_evaluate_response` (the submit-response operation): rejects when no
current question is outstanding or the text strips to empty; otherwise
appends the response record, stamps `last_activity`, sets EVALUATING, then
evaluates and synthesizes feedback.  A raising evaluator or generator is
caught: the generic acknowledgement is returned but the already-appended
record remains. -/
def evaluate_response (c : Collaborators) (now : Nat) (a : AgentState)
    (response : String) : String × AgentState :=
  match a.current_question with
  | none => (didnt_catch_msg, a)
  | some cq =>
    if is_blank response then
      (didnt_catch_msg, a)
    else
      let rr := mk_response_record response cq now
      let p1 := { a.progress with
        responses_received := a.progress.responses_received ++ [rr],
        last_activity := some now,
        state := InterviewState.evaluating }
      let a1 := { a with progress := p1, waiting_for_response := false }
      match c.evaluate cq.question response cq.qtype p1.responses_received.length with
      | Except.error _ => (generic_ack_msg, a1)
      | Except.ok ev =>
        match c.response_feedback ev (decide (p1.responses_received.length ≤ 2)) with
        | Except.error _ => (generic_ack_msg, a1)
        | Except.ok fb => (fb, save_interview_progress c a1)

/-- The canned hint for the behavioral category (also the dict lookup
default in `_provide_hint`). -/
def behavioral_hint : String :=
  "Think about a specific situation from your past. Use the STAR method: " ++
  "describe the Situation, your Task, the Actions you took, and the Results achieved."

/-- The hint table of `_provide_hint`, keyed by question type, defaulting
to the behavioral hint. -/
def hint_for (question_type : String) : String :=
  if question_type = "behavioral" then behavioral_hint
  else if question_type = "technical" then
    "Break down the problem step by step. Explain your thought process, " ++
    "consider edge cases, and discuss any trade-offs in your approach."
  else if question_type = "system_design" then
    "Start with understanding the requirements. Think about scale, identify " ++
    "key components, and discuss how they interact."
  else if question_type = "problem_solving" then
    "Walk me through your thinking process. What is your approach to breaking " ++
    "down complex problems? What factors would you consider?"
  else behavioral_hint

/-- `_provide_hint`: read-only; returns canned text keyed by the current
question category. -/
def provide_hint (a : AgentState) : String × AgentState :=
  match a.current_question with
  | none =>
    ("I do not have a specific hint right now. Feel free to ask me to clarify the question.", a)
  | some cq =>
    ("Here is a hint to help you structure your response: " ++ hint_for cq.qtype ++
     "\n\nTake your time and provide specific examples where possible.", a)

/-- `_handle_clarification`: read-only; restates the current question. -/
def handle_clarification (a : AgentState) (_request : String) : String × AgentState :=
  match a.current_question with
  | none => ("What would you like me to clarify?", a)
  | some cq =>
    ("Good question! Let me clarify: " ++ cq.question ++
     "\n\nI am looking for a specific example from your experience. Does that help?", a)

/-- `_handle_early_exit`: invoked when the last participant disconnects;
attempts an "incomplete" status update with the partial-progress payload. -/
def handle_early_exit (c : Collaborators) (now : Nat) (a : AgentState) : AgentState :=
  let payload := StatusData.incompleteData "early_exit"
    a.progress.questions_asked.length
    a.progress.responses_received.length
    (get_interview_duration now a.progress)
  let writes := update_interview_status c a.status_writes "incomplete" (some payload)
  { a with status_writes := writes }

/-- `_handle_agent_error`: invoked from the entrypoint exception handler;
attempts an "error" status update with the error payload. -/
def handle_agent_error (c : Collaborators) (now : Nat)
    (error_type error_message : String) (a : AgentState) : AgentState :=
  let payload := StatusData.errorData error_type error_message now
  let writes := update_interview_status c a.status_writes "error" (some payload)
  { a with status_writes := writes }

/-- Inbound data-channel messages handled by `_handle_data_message`. -/
inductive DataMessage
  | response_submitted (response : String)
  | request_hint
  | request_clarification (request : String)
  | other (mtype : String)
  deriving DecidableEq, Repr

/-- `_handle_data_message`: routes inbound messages; a text response is
processed only when non-empty and a response is awaited; unknown types are
ignored. -/
def handle_data_message (c : Collaborators) (now : Nat) (a : AgentState)
    (m : DataMessage) : AgentState :=
  match m with
  | DataMessage.response_submitted response =>
    if response ≠ "" ∧ a.waiting_for_response = true then
      (evaluate_response c now a response).2
    else a
  | DataMessage.request_hint => (provide_hint a).2
  | DataMessage.request_clarification request => (handle_clarification a request).2
  | DataMessage.other _ => a

/-- The start of `entrypoint`: sets `start_time`, moves to GREETING, and
performs the "started" status update. -/
def entry_start (c : Collaborators) (now : Nat) (a : AgentState) : AgentState :=
  let a1 := { a with progress :=
    { a.progress with start_time := some now, state := InterviewState.greeting } }
  { a1 with status_writes := update_interview_status c a1.status_writes "started" none }

/-- The agent state right after construction (`InterviewProgress()` with
its `__post_init__` empty lists). -/
def init_agent : AgentState := {}

/-- One tick of `_monitor_interview_progress`, taking the wall clock, the
captured `start_time`, and the progress snapshot.  The loop exits on a
terminal state; otherwise it triggers the timeout conclusion when elapsed
time exceeds the configured duration plus the five-minute buffer, and the
inactivity conclusion when `last_activity` is set and more than ten minutes
old.  Durations are in seconds. -/
inductive MonitorAction
  | stopped
  | timeout_conclude
  | inactivity_conclude
  | keep_waiting
  deriving DecidableEq, Repr

def monitor_tick (cfg : InterviewConfig) (now : Nat) (start_time : Nat)
    (p : InterviewProgress) : MonitorAction :=
  if p.state = InterviewState.completed ∨ p.state = InterviewState.error then
    MonitorAction.stopped
  else
    let max_duration := (cfg.duration.getD 30 + 5) * 60
    if max_duration < now - start_time then
      MonitorAction.timeout_conclude
    else
      match p.last_activity with
      | some t =>
        if 10 * 60 < now - t then MonitorAction.inactivity_conclude
        else MonitorAction.keep_waiting
      | none => MonitorAction.keep_waiting

/-- The operations that can hit one session, for trace-level properties. -/
inductive Op
  | start (now : Nat)
  | ask (now : Nat)
  | submit (now : Nat) (text : String)
  | hint
  | clarify (request : String)
  | conclude (now : Nat)
  | dataMsg (now : Nat) (m : DataMessage)
  | earlyExit (now : Nat)

/-- Apply one operation to the agent state. -/
def applyOp (s : Settings) (cfg : InterviewConfig) (c : Collaborators) :
    Op → AgentState → AgentState
  | Op.start now, a => entry_start c now a
  | Op.ask now, a => (ask_next_question s cfg c now a).2
  | Op.submit now text, a => (evaluate_response c now a text).2
  | Op.hint, a => (provide_hint a).2
  | Op.clarify req, a => (handle_clarification a req).2
  | Op.conclude now, a => (conclude_interview c now a).2
  | Op.dataMsg now m, a => handle_data_message c now a m
  | Op.earlyExit now, a => handle_early_exit c now a

/-- Run a sequence of operations from a starting state. -/
def runOps (s : Settings) (cfg : InterviewConfig) (c : Collaborators)
    (ops : List Op) (a : AgentState) : AgentState :=
  ops.foldl (fun st op => applyOp s cfg c op st) a

/-! ## Concrete fixtures for witnesses and counterexamples -/

/-- A fixed evaluation result returned by the demo evaluator. -/
def demo_eval : EvaluationResult :=
  { score := 8, strengths := ["clear"], weaknesses := ["brief"],
    specific_feedback := "Good structure.", suggestions := ["add detail"] }

/-- A fixed final feedback payload returned by the demo generator. -/
def demo_final : FinalFeedback :=
  { overall_rating := "Good", strengths := ["communication"], improvements := ["depth"] }

/-- Deterministic, always-succeeding collaborators. -/
def demo_collab : Collaborators :=
  { get_next_question := fun i _ =>
      Except.ok (some { question := "Q" ++ toString i, qtype := "behavioral", difficulty := none }),
    total_available_questions := 10,
    evaluate := fun _ _ _ _ => Except.ok demo_eval,
    response_feedback := fun _ _ => Except.ok "Nice answer.",
    final_feedback := fun _ _ _ => Except.ok demo_final,
    start_session := Except.ok (),
    complete_session := fun _ => Except.ok (),
    save_progress := Except.ok () }

/-- Collaborators whose persistence layer raises on every progress save. -/
def failsave_collab : Collaborators :=
  { demo_collab with save_progress := Except.error "database write failed" }

/-- Collaborators whose response evaluator raises on every call. -/
def faileval_collab : Collaborators :=
  { demo_collab with evaluate := fun _ _ _ _ => Except.error "evaluator unavailable" }

/-- Demo application settings. -/
def s0 : Settings := { MAX_QUESTIONS_PER_INTERVIEW := 10, MIN_QUESTIONS_PER_INTERVIEW := 3 }

/-- Demo interview config: three to five questions, thirty minutes. -/
def cfg0 : InterviewConfig := { min_questions := some 3, max_questions := some 5, duration := some 30 }

/-- A COMPLETED-state agent reached by starting and then concluding at once
(a legal trace: conclusion can be forced from any state). -/
def a_completed : AgentState :=
  runOps s0 cfg0 demo_collab [Op.start 0, Op.conclude 0] init_agent

/-- An EVALUATING-state agent with one answered question outstanding,
reached by start, ask, submit. -/
def a_evaluating : AgentState :=
  runOps s0 cfg0 demo_collab [Op.start 0, Op.ask 10, Op.submit 20 "my first answer"] init_agent

/-- An agent that has asked and received answers for two of five questions. -/
def a_two_answered : AgentState :=
  runOps s0 cfg0 demo_collab
    [Op.start 0, Op.ask 10, Op.submit 20 "answer one", Op.ask 30, Op.submit 40 "answer two"]
    init_agent

/-- A QUESTIONING-state agent with one question outstanding and no answer. -/
def a_questioning : AgentState :=
  runOps s0 cfg0 demo_collab [Op.start 0, Op.ask 10] init_agent

/-- An agent that has asked all five of the configured maximum questions,
each answered in turn. -/
def a_five_questions : AgentState :=
  runOps s0 cfg0 demo_collab
    [Op.start 0, Op.ask 1, Op.submit 2 "a1", Op.ask 3, Op.submit 4 "a2",
     Op.ask 5, Op.submit 6 "a3", Op.ask 7, Op.submit 8 "a4", Op.ask 9, Op.submit 10 "a5"]
    init_agent

/-- Number of "completed" status writes that reached the service. -/
def completed_write_count (writes : List StatusWrite) : Nat :=
  (writes.filter fun w =>
    match w with
    | StatusWrite.completedW _ => true
    | _ => false).length

/-! ## Helper lemmas about single operations -/

theorem save_interview_progress_progress (c : Collaborators) (a : AgentState) :
    (save_interview_progress c a).progress = a.progress := by
  unfold save_interview_progress
  cases c.save_progress <;> rfl

theorem conclude_interview_progress_fields (c : Collaborators) (now : Nat) (a : AgentState) :
    (conclude_interview c now a).2.progress.questions_asked = a.progress.questions_asked
    ∧ (conclude_interview c now a).2.progress.responses_received = a.progress.responses_received
    ∧ (conclude_interview c now a).2.progress.current_question_index = a.progress.current_question_index
    ∧ (conclude_interview c now a).2.progress.start_time = a.progress.start_time
    ∧ (conclude_interview c now a).2.progress.last_activity = a.progress.last_activity := by
  unfold conclude_interview
  simp only []
  split <;> simp

theorem ask_next_question_shape (s : Settings) (cfg : InterviewConfig) (c : Collaborators)
    (now : Nat) (a : AgentState) :
    ((ask_next_question s cfg c now a).2.progress.questions_asked = a.progress.questions_asked
      ∧ (ask_next_question s cfg c now a).2.progress.current_question_index
          = a.progress.current_question_index
      ∧ (ask_next_question s cfg c now a).2.progress.responses_received
          = a.progress.responses_received
      ∧ (ask_next_question s cfg c now a).2.progress.last_activity = a.progress.last_activity)
    ∨ (∃ qr : QuestionRecord, qr.index = a.progress.current_question_index
      ∧ (ask_next_question s cfg c now a).2.progress.questions_asked
          = a.progress.questions_asked ++ [qr]
      ∧ (ask_next_question s cfg c now a).2.progress.current_question_index
          = a.progress.current_question_index + 1
      ∧ (ask_next_question s cfg c now a).2.progress.responses_received
          = a.progress.responses_received
      ∧ (ask_next_question s cfg c now a).2.progress.last_activity
          = a.progress.last_activity) := by
  have hcf := conclude_interview_progress_fields c now a
  unfold ask_next_question
  simp only []
  by_cases hsc : should_continue_interview s cfg c now a.progress = true
  · rw [if_neg (by simp [hsc])]
    cases hg : c.get_next_question a.progress.current_question_index
        a.progress.responses_received with
    | error e => exact Or.inl ⟨rfl, rfl, rfl, rfl⟩
    | ok oq =>
      cases oq with
      | none => exact Or.inl ⟨hcf.1, hcf.2.2.1, hcf.2.1, hcf.2.2.2.2⟩
      | some qd =>
        refine Or.inr ⟨mk_question_record qd now a.progress.current_question_index,
          rfl, ?_, ?_, ?_, ?_⟩ <;>
          simp [save_interview_progress_progress]
  · rw [if_pos (by simp [hsc])]
    exact Or.inl ⟨hcf.1, hcf.2.2.1, hcf.2.1, hcf.2.2.2.2⟩

theorem evaluate_response_shape (c : Collaborators) (now : Nat) (a : AgentState)
    (text : String) :
    (evaluate_response c now a text).2 = a
    ∨ (∃ rr : ResponseRecord,
        (evaluate_response c now a text).2.progress.responses_received
          = a.progress.responses_received ++ [rr]
      ∧ (evaluate_response c now a text).2.progress.questions_asked = a.progress.questions_asked
      ∧ (evaluate_response c now a text).2.progress.current_question_index
          = a.progress.current_question_index
      ∧ (evaluate_response c now a text).2.progress.last_activity = some now) := by
  unfold evaluate_response
  cases hq : a.current_question with
  | none => exact Or.inl rfl
  | some cq =>
    simp only []
    by_cases ht : is_blank text = true
    · rw [if_pos ht]
      exact Or.inl rfl
    · rw [if_neg ht]
      cases hev : c.evaluate cq.question text cq.qtype
          (a.progress.responses_received ++ [mk_response_record text cq now]).length with
      | error e =>
        refine Or.inr ⟨mk_response_record text cq now, ?_, ?_, ?_, ?_⟩ <;> rfl
      | ok ev =>
        cases hfb : c.response_feedback ev
            (decide ((a.progress.responses_received ++ [mk_response_record text cq now]).length ≤ 2)) with
        | error e =>
          refine Or.inr ⟨mk_response_record text cq now, ?_, ?_, ?_, ?_⟩ <;>
            simp only [hfb]
        | ok fb =>
          refine Or.inr ⟨mk_response_record text cq now, ?_, ?_, ?_, ?_⟩ <;>
            simp only [hfb, save_interview_progress_progress]

theorem provide_hint_state (a : AgentState) : (provide_hint a).2 = a := by
  unfold provide_hint
  cases a.current_question <;> rfl

theorem handle_clarification_state (a : AgentState) (r : String) :
    (handle_clarification a r).2 = a := by
  unfold handle_clarification
  cases a.current_question <;> rfl

theorem update_interview_status_other (c : Collaborators) (w : List StatusWrite)
    (status : String) (d : Option StatusData) (h1 : ¬ status = "started")
    (h2 : ¬ status = "completed") : update_interview_status c w status d = w := by
  unfold update_interview_status
  rw [if_neg h1, if_neg h2]

theorem handle_early_exit_state (c : Collaborators) (now : Nat) (a : AgentState) :
    handle_early_exit c now a = a := by
  unfold handle_early_exit
  simp only []
  rw [update_interview_status_other c a.status_writes "incomplete" _
    (by decide) (by decide)]

theorem handle_agent_error_state (c : Collaborators) (now : Nat)
    (et em : String) (a : AgentState) : handle_agent_error c now et em a = a := by
  unfold handle_agent_error
  simp only []
  rw [update_interview_status_other c a.status_writes "error" _
    (by decide) (by decide)]

theorem entry_start_fields (c : Collaborators) (now : Nat) (a : AgentState) :
    (entry_start c now a).progress.questions_asked = a.progress.questions_asked
    ∧ (entry_start c now a).progress.responses_received = a.progress.responses_received
    ∧ (entry_start c now a).progress.current_question_index = a.progress.current_question_index
    ∧ (entry_start c now a).progress.last_activity = a.progress.last_activity := by
  unfold entry_start
  exact ⟨rfl, rfl, rfl, rfl⟩

/-- The core data invariant of `InterviewProgress`: the asked-question list
length equals the current index, question records carry indices 0,1,2,...
with no gaps, and `last_activity` is unset while no response has been
accepted. -/
def progress_core_inv (a : AgentState) : Prop :=
  a.progress.questions_asked.length = a.progress.current_question_index
  ∧ a.progress.questions_asked.map QuestionRecord.index
      = List.range a.progress.current_question_index
  ∧ (a.progress.responses_received = [] → a.progress.last_activity = none)

theorem core_inv_transfer (a b : AgentState)
    (hq : b.progress.questions_asked = a.progress.questions_asked)
    (hi : b.progress.current_question_index = a.progress.current_question_index)
    (hr : b.progress.responses_received = a.progress.responses_received)
    (hl : b.progress.last_activity = a.progress.last_activity)
    (h : progress_core_inv a) : progress_core_inv b := by
  obtain ⟨h1, h2, h3⟩ := h
  refine ⟨?_, ?_, ?_⟩
  · rw [hq, hi, h1]
  · rw [hq, hi, h2]
  · rw [hr, hl]
    exact h3

theorem evaluate_core_inv (c : Collaborators) (now : Nat) (a : AgentState)
    (text : String) (h : progress_core_inv a) :
    progress_core_inv (evaluate_response c now a text).2 := by
  rcases evaluate_response_shape c now a text with heq | ⟨rr, hr, hq, hi, hl⟩
  · rw [heq]; exact h
  · obtain ⟨h1, h2, h3⟩ := h
    refine ⟨?_, ?_, ?_⟩
    · rw [hq, hi, h1]
    · rw [hq, hi, h2]
    · intro habs
      rw [hr] at habs
      exact absurd habs (by simp)

theorem ask_core_inv (s : Settings) (cfg : InterviewConfig) (c : Collaborators)
    (now : Nat) (a : AgentState) (h : progress_core_inv a) :
    progress_core_inv (ask_next_question s cfg c now a).2 := by
  rcases ask_next_question_shape s cfg c now a with ⟨hq, hi, hr, hl⟩ | ⟨qr, hidx, hq, hi, hr, hl⟩
  · exact core_inv_transfer a _ hq hi hr hl h
  · obtain ⟨h1, h2, h3⟩ := h
    refine ⟨?_, ?_, ?_⟩
    · rw [hq, hi]
      simp [h1]
    · rw [hq, hi]
      simp [List.range_succ, h2, hidx]
    · intro habs
      rw [hr] at habs
      rw [hl]
      exact h3 habs

theorem applyOp_core_inv (s : Settings) (cfg : InterviewConfig) (c : Collaborators)
    (op : Op) (a : AgentState) (h : progress_core_inv a) :
    progress_core_inv (applyOp s cfg c op a) := by
  cases op with
  | start now =>
    have hf := entry_start_fields c now a
    exact core_inv_transfer a _ hf.1 hf.2.2.1 hf.2.1 hf.2.2.2 h
  | ask now => exact ask_core_inv s cfg c now a h
  | submit now text => exact evaluate_core_inv c now a text h
  | hint =>
    show progress_core_inv (provide_hint a).2
    rw [provide_hint_state]
    exact h
  | clarify req =>
    show progress_core_inv (handle_clarification a req).2
    rw [handle_clarification_state]
    exact h
  | conclude now =>
    have hf := conclude_interview_progress_fields c now a
    exact core_inv_transfer a _ hf.1 hf.2.2.1 hf.2.1 hf.2.2.2.2 h
  | dataMsg now m =>
    cases m with
    | response_submitted resp =>
      show progress_core_inv
        (if resp ≠ "" ∧ a.waiting_for_response = true then (evaluate_response c now a resp).2 else a)
      split
      · exact evaluate_core_inv c now a resp h
      · exact h
    | request_hint =>
      show progress_core_inv (provide_hint a).2
      rw [provide_hint_state]
      exact h
    | request_clarification req =>
      show progress_core_inv (handle_clarification a req).2
      rw [handle_clarification_state]
      exact h
    | other t => exact h
  | earlyExit now =>
    show progress_core_inv (handle_early_exit c now a)
    rw [handle_early_exit_state]
    exact h

theorem init_core_inv : progress_core_inv init_agent :=
  ⟨rfl, rfl, fun _ => rfl⟩

theorem runOps_core_inv (s : Settings) (cfg : InterviewConfig) (c : Collaborators)
    (ops : List Op) (a : AgentState) (h : progress_core_inv a) :
    progress_core_inv (runOps s cfg c ops a) := by
  induction ops generalizing a with
  | nil => exact h
  | cons op rest ih => exact ih (applyOp s cfg c op a) (applyOp_core_inv s cfg c op a h)

theorem applyOp_index_mono (s : Settings) (cfg : InterviewConfig) (c : Collaborators)
    (op : Op) (a : AgentState) :
    a.progress.current_question_index ≤ (applyOp s cfg c op a).progress.current_question_index := by
  cases op with
  | start now =>
    show a.progress.current_question_index ≤ (entry_start c now a).progress.current_question_index
    rw [(entry_start_fields c now a).2.2.1]
  | ask now =>
    show a.progress.current_question_index ≤ (ask_next_question s cfg c now a).2.progress.current_question_index
    rcases ask_next_question_shape s cfg c now a with ⟨_, hi, _, _⟩ | ⟨qr, _, _, hi, _, _⟩ <;>
      rw [hi] <;> omega
  | submit now text =>
    show a.progress.current_question_index ≤ (evaluate_response c now a text).2.progress.current_question_index
    rcases evaluate_response_shape c now a text with heq | ⟨rr, _, _, hi, _⟩
    · rw [heq]
    · rw [hi]
  | hint =>
    show a.progress.current_question_index ≤ (provide_hint a).2.progress.current_question_index
    rw [provide_hint_state]
  | clarify req =>
    show a.progress.current_question_index ≤ (handle_clarification a req).2.progress.current_question_index
    rw [handle_clarification_state]
  | conclude now =>
    show a.progress.current_question_index ≤ (conclude_interview c now a).2.progress.current_question_index
    rw [(conclude_interview_progress_fields c now a).2.2.1]
  | dataMsg now m =>
    show a.progress.current_question_index ≤ (handle_data_message c now a m).progress.current_question_index
    cases m with
    | response_submitted resp =>
      show a.progress.current_question_index ≤
        (if resp ≠ "" ∧ a.waiting_for_response = true then (evaluate_response c now a resp).2 else a).progress.current_question_index
      split
      · rcases evaluate_response_shape c now a resp with heq | ⟨rr, _, _, hi, _⟩
        · rw [heq]
        · rw [hi]
      · exact Nat.le_refl _
    | request_hint => rw [show (handle_data_message c now a DataMessage.request_hint) = (provide_hint a).2 from rfl, provide_hint_state]
    | request_clarification req => rw [show (handle_data_message c now a (DataMessage.request_clarification req)) = (handle_clarification a req).2 from rfl, handle_clarification_state]
    | other t => exact Nat.le_refl _
  | earlyExit now =>
    show a.progress.current_question_index ≤ (handle_early_exit c now a).progress.current_question_index
    rw [handle_early_exit_state]

theorem get_interview_duration_congr (now : Nat) (p q : InterviewProgress)
    (h : p.start_time = q.start_time) :
    get_interview_duration now p = get_interview_duration now q := by
  unfold get_interview_duration
  rw [h]

theorem conclude_interview_writes (c : Collaborators) (now : Nat) (a : AgentState)
    (ff : FinalFeedback)
    (hff : c.final_feedback a.progress.questions_asked a.progress.responses_received
        (get_interview_duration now a.progress) = Except.ok ff)
    (hcs : c.complete_session (some (StatusData.completedData ff)) = Except.ok ()) :
    (conclude_interview c now a).2.status_writes
      = a.status_writes ++ [StatusWrite.completedW (some (StatusData.completedData ff))]
    ∧ (conclude_interview c now a).2.progress.state = InterviewState.completed := by
  unfold conclude_interview
  simp only []
  rw [show get_interview_duration now { a.progress with state := InterviewState.concluding }
        = get_interview_duration now a.progress from rfl,
      hff]
  simp [update_interview_status, hcs]

/-! ## Claim theorems -/

/-- Claim C1: the continuation policy, evaluated at the start of every
askNextQuestion call, continues whenever fewer than the minimum number of
questions have been asked regardless of elapsed time, stops once the
maximum is reached, and otherwise continues exactly while elapsed whole
minutes are below 1.2 times the target duration; in particular with
minimum 3 and maximum 5 it continues for zero to two questions asked at
any elapsed time and stops at five. -/
theorem C1_continuation_policy (s : Settings) (cfg : InterviewConfig)
    (c : Collaborators) (now : Nat) (p : InterviewProgress) :
    (p.questions_asked.length < max (cfg.min_questions.getD s.MIN_QUESTIONS_PER_INTERVIEW) 3 →
      should_continue_interview s cfg c now p = true)
    ∧ (max (cfg.min_questions.getD s.MIN_QUESTIONS_PER_INTERVIEW) 3 ≤ p.questions_asked.length →
       min (cfg.max_questions.getD s.MAX_QUESTIONS_PER_INTERVIEW) c.total_available_questions
         ≤ p.questions_asked.length →
      should_continue_interview s cfg c now p = false)
    ∧ (max (cfg.min_questions.getD s.MIN_QUESTIONS_PER_INTERVIEW) 3 ≤ p.questions_asked.length →
       p.questions_asked.length
         < min (cfg.max_questions.getD s.MAX_QUESTIONS_PER_INTERVIEW) c.total_available_questions →
      (should_continue_interview s cfg c now p = true ↔
        5 * get_interview_duration now p < 6 * cfg.duration.getD 30))
    ∧ (∀ a : AgentState, should_continue_interview s cfg c now a.progress = false →
        ask_next_question s cfg c now a = conclude_interview c now a)
    ∧ (∀ (n2 : Nat) (p2 : InterviewProgress), p2.questions_asked.length < 3 →
        should_continue_interview s cfg0 demo_collab n2 p2 = true)
    ∧ (∀ (n2 : Nat) (p2 : InterviewProgress), p2.questions_asked.length = 5 →
        should_continue_interview s cfg0 demo_collab n2 p2 = false) := by
  refine ⟨?_, ?_, ?_, ?_, ?_, ?_⟩
  · intro h
    unfold should_continue_interview
    simp only []
    rw [if_pos h]
  · intro hmin hmax
    unfold should_continue_interview
    simp only []
    rw [if_neg (by omega), if_pos hmax]
  · intro hmin hmax
    unfold should_continue_interview
    simp only []
    rw [if_neg (by omega), if_neg (by omega)]
    exact decide_eq_true_iff
  · intro a hf
    unfold ask_next_question
    rw [if_pos (by simp [hf])]
  · intro n2 p2 h
    simp [should_continue_interview, cfg0, h]
  · intro n2 p2 h
    simp [should_continue_interview, cfg0, demo_collab, h]

/-- Witness for C1: with two of five questions asked the policy continues
even at a huge elapsed time, and with five questions asked it stops even
at elapsed time zero. -/
theorem C1_continuation_policy_witness :
    should_continue_interview s0 cfg0 demo_collab 1000000 a_two_answered.progress = true
    ∧ should_continue_interview s0 cfg0 demo_collab 0 a_five_questions.progress = false :=
  ⟨(C1_continuation_policy s0 cfg0 demo_collab 1000000 a_two_answered.progress).2.2.2.2.1
      1000000 a_two_answered.progress (by decide),
   (C1_continuation_policy s0 cfg0 demo_collab 0 a_five_questions.progress).2.2.2.2.2
      0 a_five_questions.progress (by decide)⟩

/-- Claim C2 counterexample: after one conclusion the session is COMPLETED
with one completed write; a second concludeInterview call performs a second
completed write, so two consecutive calls do not make exactly one write. -/
theorem C2_idempotence_counterexample :
    (conclude_interview demo_collab 600 a_two_answered).2.progress.state
      = InterviewState.completed
    ∧ completed_write_count
        (conclude_interview demo_collab 600 a_two_answered).2.status_writes = 1
    ∧ completed_write_count
        (conclude_interview demo_collab 600
          (conclude_interview demo_collab 600 a_two_answered).2).2.status_writes = 2 := by
  decide

/-- Claim C2 (amended): concludeInterview has no idempotency guard: every
call with a successful synthesizer and persistence recomputes the final
feedback and appends its own completed write, so two consecutive calls
(the second finding State already COMPLETED) produce two completed writes;
the two payloads coincide when the synthesizer is deterministic. -/
theorem C2_conclude_not_idempotent (c : Collaborators) (now : Nat) (a : AgentState)
    (ff : FinalFeedback)
    (hff : c.final_feedback a.progress.questions_asked a.progress.responses_received
        (get_interview_duration now a.progress) = Except.ok ff)
    (hcs : c.complete_session (some (StatusData.completedData ff)) = Except.ok ()) :
    (conclude_interview c now (conclude_interview c now a).2).2.status_writes
      = a.status_writes
        ++ [StatusWrite.completedW (some (StatusData.completedData ff)),
            StatusWrite.completedW (some (StatusData.completedData ff))]
    ∧ completed_write_count
        (conclude_interview c now (conclude_interview c now a).2).2.status_writes
      = completed_write_count a.status_writes + 2 := by
  have hfield := conclude_interview_progress_fields c now a
  have h1 := conclude_interview_writes c now a ff hff hcs
  have hff1 : c.final_feedback (conclude_interview c now a).2.progress.questions_asked
      (conclude_interview c now a).2.progress.responses_received
      (get_interview_duration now (conclude_interview c now a).2.progress) = Except.ok ff := by
    rw [hfield.1, hfield.2.1,
      get_interview_duration_congr now _ a.progress hfield.2.2.2.1]
    exact hff
  have h2 := conclude_interview_writes c now (conclude_interview c now a).2 ff hff1 hcs
  constructor
  · rw [h2.1, h1.1]
    simp
  · rw [h2.1, h1.1]
    simp [completed_write_count, List.filter_append]

/-- Witness for C2: two conclusions from a questioning state append exactly
two completed writes carrying the demo final feedback. -/
theorem C2_conclude_not_idempotent_witness :
    (conclude_interview demo_collab 600
        (conclude_interview demo_collab 600 a_questioning).2).2.status_writes
      = a_questioning.status_writes
        ++ [StatusWrite.completedW (some (StatusData.completedData demo_final)),
            StatusWrite.completedW (some (StatusData.completedData demo_final))]
    ∧ completed_write_count
        (conclude_interview demo_collab 600
          (conclude_interview demo_collab 600 a_questioning).2).2.status_writes
      = completed_write_count a_questioning.status_writes + 2 :=
  C2_conclude_not_idempotent demo_collab 600 a_questioning demo_final rfl rfl

/-- Claim C3 counterexample: in the terminal COMPLETED state reached by a
forced conclusion right after start, askNextQuestion still mutates
progress: it appends a question record and moves State to QUESTIONING. -/
theorem C3_terminal_mutation_counterexample :
    a_completed.progress.state = InterviewState.completed
    ∧ (ask_next_question s0 cfg0 demo_collab 60 a_completed).2.progress.questions_asked.length
        = a_completed.progress.questions_asked.length + 1
    ∧ (ask_next_question s0 cfg0 demo_collab 60 a_completed).2.progress.state
        = InterviewState.questioning := by
  decide

/-- Claim C3 (amended): no operation checks for a terminal state.
provideHint and handleClarification happen to leave the agent state
unchanged in every state, but askNextQuestion can mutate SessionProgress
even when State is COMPLETED, as witnessed concretely. -/
theorem C3_terminal_no_guard :
    (∀ a : AgentState, (provide_hint a).2 = a)
    ∧ (∀ (a : AgentState) (r : String), (handle_clarification a r).2 = a)
    ∧ (a_completed.progress.state = InterviewState.completed
       ∧ (ask_next_question s0 cfg0 demo_collab 60 a_completed).2.progress
           ≠ a_completed.progress) :=
  ⟨provide_hint_state, handle_clarification_state, by decide⟩

/-- Claim C4 (amended): submitResponse is a no-op on progress, returning
the didnt-catch message, whenever no current question is outstanding or
the text is empty/whitespace; the guard is on the outstanding question,
not on State, so a non-empty response with a question outstanding mutates
progress even when State is not QUESTIONING. -/
theorem C4_submit_rejection (c : Collaborators) (now : Nat) (a : AgentState)
    (text : String)
    (h : a.current_question = none ∨ is_blank text = true) :
    evaluate_response c now a text = (didnt_catch_msg, a) := by
  unfold evaluate_response
  cases hq : a.current_question with
  | none => rfl
  | some cq =>
    simp only []
    rcases h with h | h
    · rw [hq] at h
      exact absurd h (by simp)
    · rw [if_pos h]

/-- Witness for C4: a whitespace-only response in a questioning state is
rejected without mutation. -/
theorem C4_submit_rejection_witness :
    evaluate_response demo_collab 30 a_questioning "   " = (didnt_catch_msg, a_questioning) :=
  C4_submit_rejection demo_collab 30 a_questioning "   " (Or.inr (by decide))

/-- Claim C4 counterexample: in the EVALUATING state (not QUESTIONING) with
a current question still set, a non-empty submitResponse appends another
response record, so the operation is not a no-op whenever State differs
from QUESTIONING. -/
theorem C4_state_guard_counterexample :
    a_evaluating.progress.state = InterviewState.evaluating
    ∧ (evaluate_response demo_collab 30 a_evaluating "my second answer").2.progress.responses_received.length
        = a_evaluating.progress.responses_received.length + 1 := by
  decide

/-- Claim C5 (amended): a persistence-layer throw during askNextQuestion
(the progress-snapshot save raising) is swallowed inside the save helper
by its own local try/except, so the operation completes normally: the
question record is still appended, State becomes QUESTIONING, and the
regular question prompt is returned — only the snapshot save itself is
skipped.  State never becomes ERROR, the exception does not propagate to
the caller, and no markError write occurs then or ever, because the
status updater has no branch for the "error" status, so even the
entrypoint error handler persists nothing. -/
theorem C5_persistence_throw_swallowed (s : Settings) (cfg : InterviewConfig)
    (c : Collaborators) (now : Nat) (a : AgentState) (qd : QuestionData) (e : String)
    (hc : should_continue_interview s cfg c now a.progress = true)
    (hq : c.get_next_question a.progress.current_question_index
        a.progress.responses_received = Except.ok (some qd))
    (hs : c.save_progress = Except.error e) :
    (ask_next_question s cfg c now a).1 = ask_question_reply qd.question
    ∧ (ask_next_question s cfg c now a).2.progress.questions_asked
        = a.progress.questions_asked
          ++ [mk_question_record qd now a.progress.current_question_index]
    ∧ (ask_next_question s cfg c now a).2.progress.state = InterviewState.questioning
    ∧ (ask_next_question s cfg c now a).2.progress.state ≠ InterviewState.error
    ∧ (ask_next_question s cfg c now a).2.status_writes = a.status_writes
    ∧ (ask_next_question s cfg c now a).2.progress_saves = a.progress_saves
    ∧ (∀ (c2 : Collaborators) (w : List StatusWrite) (d : Option StatusData),
        update_interview_status c2 w "error" d = w)
    ∧ (∀ (c2 : Collaborators) (n2 : Nat) (et em : String) (a2 : AgentState),
        handle_agent_error c2 n2 et em a2 = a2) := by
  have hsave : ∀ b : AgentState, save_interview_progress c b = b := by
    intro b
    unfold save_interview_progress
    rw [hs]
  unfold ask_next_question
  rw [if_neg (by simp [hc])]
  simp only [hq, hsave]
  refine ⟨?_, ?_, ?_, ?_, ?_, ?_, ?_, handle_agent_error_state⟩ <;>
    first
      | trivial
      | decide
      | (intro c2 w d
         exact update_interview_status_other c2 w "error" d (by decide) (by decide))

/-- Witness for C5: with the persistence layer raising on every save,
asking the next question from a questioning-state session still returns
the normal prompt and appends the question, with the write log and the
successful-save counter untouched. -/
theorem C5_persistence_throw_swallowed_witness :
    (ask_next_question s0 cfg0 failsave_collab 60 a_questioning).1
      = ask_question_reply "Q1"
    ∧ (ask_next_question s0 cfg0 failsave_collab 60 a_questioning).2.progress.questions_asked
        = a_questioning.progress.questions_asked
          ++ [mk_question_record
                { question := "Q1", qtype := "behavioral", difficulty := none } 60 1]
    ∧ (ask_next_question s0 cfg0 failsave_collab 60 a_questioning).2.progress.state
        = InterviewState.questioning
    ∧ (ask_next_question s0 cfg0 failsave_collab 60 a_questioning).2.progress.state
        ≠ InterviewState.error
    ∧ (ask_next_question s0 cfg0 failsave_collab 60 a_questioning).2.status_writes
        = a_questioning.status_writes
    ∧ (ask_next_question s0 cfg0 failsave_collab 60 a_questioning).2.progress_saves
        = a_questioning.progress_saves
    ∧ (∀ (c2 : Collaborators) (w : List StatusWrite) (d : Option StatusData),
        update_interview_status c2 w "error" d = w)
    ∧ (∀ (c2 : Collaborators) (n2 : Nat) (et em : String) (a2 : AgentState),
        handle_agent_error c2 n2 et em a2 = a2) :=
  C5_persistence_throw_swallowed s0 cfg0 failsave_collab 60 a_questioning
    { question := "Q1", qtype := "behavioral", difficulty := none }
    "database write failed" (by decide) rfl rfl

/-- Claim C5 counterexample: at the claim's own example input — the
persistence layer throwing inside askNextQuestion — State does not become
ERROR (it is QUESTIONING), no markError or any other persistence write
occurs (the write log is unchanged and the failed snapshot save is
skipped), and the exception does not propagate: the call returns the
normal question prompt. -/
theorem C5_persistence_throw_counterexample :
    (ask_next_question s0 cfg0 failsave_collab 60 a_questioning).2.progress.state
        = InterviewState.questioning
    ∧ (ask_next_question s0 cfg0 failsave_collab 60 a_questioning).2.progress.state
        ≠ InterviewState.error
    ∧ (ask_next_question s0 cfg0 failsave_collab 60 a_questioning).2.status_writes
        = a_questioning.status_writes
    ∧ (ask_next_question s0 cfg0 failsave_collab 60 a_questioning).2.progress_saves
        = a_questioning.progress_saves := by
  decide

/-- Claim C6: the early-exit handler builds the incomplete payload (reason,
questions completed, responses completed, duration) and passes it to the
status updater, but the updater has no branch for the "incomplete" status,
so no persistence write occurs at all; at the failing input (two of five
questions answered) the write log is left unchanged. -/
theorem C6_incomplete_write_dropped :
    (∀ (c : Collaborators) (w : List StatusWrite) (d : Option StatusData),
      update_interview_status c w "incomplete" d = w)
    ∧ handle_early_exit demo_collab 3000 a_two_answered = a_two_answered
    ∧ a_two_answered.progress.questions_asked.length = 2
    ∧ a_two_answered.progress.responses_received.length = 2
    ∧ a_two_answered.status_writes = [StatusWrite.started] :=
  ⟨fun c w d => update_interview_status_other c w "incomplete" d (by decide) (by decide),
   handle_early_exit_state demo_collab 3000 a_two_answered,
   by decide, by decide, by decide⟩

/-- Claim C7: when the evaluator (or the feedback generator) raises on a
non-blank response to an outstanding question, the response record has
already been appended and stays, the caller gets the generic
acknowledgement string, and State is EVALUATING, not ERROR. -/
theorem C7_failed_evaluation_keeps_response (c : Collaborators) (now : Nat)
    (a : AgentState) (cq : QuestionRecord) (text : String)
    (hq : a.current_question = some cq) (ht : ¬ is_blank text = true)
    (hfail :
      (∃ e, c.evaluate cq.question text cq.qtype
          (a.progress.responses_received ++ [mk_response_record text cq now]).length
        = Except.error e)
      ∨ (∃ ev e, c.evaluate cq.question text cq.qtype
            (a.progress.responses_received ++ [mk_response_record text cq now]).length
          = Except.ok ev
          ∧ c.response_feedback ev
              (decide ((a.progress.responses_received ++ [mk_response_record text cq now]).length ≤ 2))
            = Except.error e)) :
    (evaluate_response c now a text).1 = generic_ack_msg
    ∧ (evaluate_response c now a text).2.progress.responses_received
        = a.progress.responses_received ++ [mk_response_record text cq now]
    ∧ (evaluate_response c now a text).2.progress.state = InterviewState.evaluating
    ∧ (evaluate_response c now a text).2.progress.state ≠ InterviewState.error := by
  unfold evaluate_response
  rw [hq]
  simp only []
  rw [if_neg ht]
  rcases hfail with ⟨e, he⟩ | ⟨ev, e, hev, hfb⟩
  · simp only [he]
    exact ⟨trivial, trivial, trivial, by decide⟩
  · simp only [hev, hfb]
    exact ⟨trivial, trivial, trivial, by decide⟩

/-- Witness for C7: with a raising evaluator, a concrete response to the
outstanding question is still recorded and acknowledged generically. -/
theorem C7_failed_evaluation_keeps_response_witness :
    (evaluate_response faileval_collab 30 a_questioning "my answer").1 = generic_ack_msg
    ∧ (evaluate_response faileval_collab 30 a_questioning "my answer").2.progress.responses_received
        = a_questioning.progress.responses_received
          ++ [mk_response_record "my answer"
                { question := "Q0", qtype := "behavioral", difficulty := "medium",
                  timestamp := 10, index := 0 } 30]
    ∧ (evaluate_response faileval_collab 30 a_questioning "my answer").2.progress.state
        = InterviewState.evaluating
    ∧ (evaluate_response faileval_collab 30 a_questioning "my answer").2.progress.state
        ≠ InterviewState.error :=
  C7_failed_evaluation_keeps_response faileval_collab 30 a_questioning
    { question := "Q0", qtype := "behavioral", difficulty := "medium",
      timestamp := 10, index := 0 }
    "my answer" (by decide) (by decide)
    (Or.inl ⟨"evaluator unavailable", rfl⟩)

theorem evaluate_response_accepted_last_activity (c : Collaborators) (r : Nat)
    (a : AgentState) (cq : QuestionRecord) (text : String)
    (hq : a.current_question = some cq) (ht : ¬ is_blank text = true) :
    (evaluate_response c r a text).2.progress.last_activity = some r := by
  unfold evaluate_response
  rw [hq]
  simp only []
  rw [if_neg ht]
  cases hev : c.evaluate cq.question text cq.qtype
      (a.progress.responses_received ++ [mk_response_record text cq r]).length with
  | error e => rfl
  | ok ev =>
    cases hfb : c.response_feedback ev
        (decide ((a.progress.responses_received ++ [mk_response_record text cq r]).length ≤ 2)) with
    | error e => simp only [hfb]
    | ok fb => simp only [hfb, save_interview_progress_progress]

/-- Claim C8: the question-list length always equals the current question
index along every operation sequence from the initial state, question
records carry the gapless indices 0,1,2,..., the index never decreases
under any operation, and each askNextQuestion call either appends exactly
one record while incrementing the index by exactly one, or leaves both
unchanged. -/
theorem C8_question_index_invariant :
    (∀ (s : Settings) (cfg : InterviewConfig) (c : Collaborators) (ops : List Op),
      (runOps s cfg c ops init_agent).progress.questions_asked.length
        = (runOps s cfg c ops init_agent).progress.current_question_index
      ∧ (runOps s cfg c ops init_agent).progress.questions_asked.map QuestionRecord.index
        = List.range (runOps s cfg c ops init_agent).progress.current_question_index)
    ∧ (∀ (s : Settings) (cfg : InterviewConfig) (c : Collaborators) (op : Op) (a : AgentState),
        a.progress.current_question_index
          ≤ (applyOp s cfg c op a).progress.current_question_index)
    ∧ (∀ (s : Settings) (cfg : InterviewConfig) (c : Collaborators) (now : Nat) (a : AgentState),
        (∃ qr, (ask_next_question s cfg c now a).2.progress.questions_asked
            = a.progress.questions_asked ++ [qr]
          ∧ (ask_next_question s cfg c now a).2.progress.current_question_index
            = a.progress.current_question_index + 1)
        ∨ ((ask_next_question s cfg c now a).2.progress.questions_asked
            = a.progress.questions_asked
          ∧ (ask_next_question s cfg c now a).2.progress.current_question_index
            = a.progress.current_question_index)) := by
  refine ⟨?_, applyOp_index_mono, ?_⟩
  · intro s cfg c ops
    have h := runOps_core_inv s cfg c ops init_agent init_core_inv
    exact ⟨h.1, h.2.1⟩
  · intro s cfg c now a
    rcases ask_next_question_shape s cfg c now a with ⟨hq, hi, _, _⟩ | ⟨qr, _, hq, hi, _, _⟩
    · exact Or.inr ⟨hq, hi⟩
    · exact Or.inl ⟨qr, hq, hi⟩

/-- Claim C9: a monitor tick stops on a terminal state; it triggers the
timeout conclusion exactly when the session is non-terminal and elapsed
time exceeds the configured duration plus the five-minute buffer; it
triggers the inactivity conclusion exactly when non-terminal, not timed
out, and the last accepted response is more than ten minutes old; and an
accepted response resets the idle clock to its own timestamp, so a tick
within ten minutes of it never triggers inactivity. -/
theorem C9_monitor_policy (cfg : InterviewConfig) (now st : Nat) (p : InterviewProgress) :
    (monitor_tick cfg now st p = MonitorAction.stopped
      ↔ (p.state = InterviewState.completed ∨ p.state = InterviewState.error))
    ∧ (monitor_tick cfg now st p = MonitorAction.timeout_conclude
      ↔ (¬ (p.state = InterviewState.completed ∨ p.state = InterviewState.error)
          ∧ (cfg.duration.getD 30 + 5) * 60 < now - st))
    ∧ (monitor_tick cfg now st p = MonitorAction.inactivity_conclude
      ↔ (¬ (p.state = InterviewState.completed ∨ p.state = InterviewState.error)
          ∧ now - st ≤ (cfg.duration.getD 30 + 5) * 60
          ∧ ∃ t, p.last_activity = some t ∧ 10 * 60 < now - t))
    ∧ (∀ (c : Collaborators) (a : AgentState) (cq : QuestionRecord)
        (r now2 st2 : Nat) (text : String),
        a.current_question = some cq → ¬ is_blank text = true → now2 - r ≤ 10 * 60 →
        (evaluate_response c r a text).2.progress.last_activity = some r
        ∧ monitor_tick cfg now2 st2 (evaluate_response c r a text).2.progress
            ≠ MonitorAction.inactivity_conclude) := by
  have hmain :
      (monitor_tick cfg now st p = MonitorAction.stopped
        ↔ (p.state = InterviewState.completed ∨ p.state = InterviewState.error))
      ∧ (monitor_tick cfg now st p = MonitorAction.timeout_conclude
        ↔ (¬ (p.state = InterviewState.completed ∨ p.state = InterviewState.error)
            ∧ (cfg.duration.getD 30 + 5) * 60 < now - st))
      ∧ (monitor_tick cfg now st p = MonitorAction.inactivity_conclude
        ↔ (¬ (p.state = InterviewState.completed ∨ p.state = InterviewState.error)
            ∧ now - st ≤ (cfg.duration.getD 30 + 5) * 60
            ∧ ∃ t, p.last_activity = some t ∧ 10 * 60 < now - t)) := by
    unfold monitor_tick
    by_cases hterm : p.state = InterviewState.completed ∨ p.state = InterviewState.error
    · rw [if_pos hterm]
      refine ⟨?_, ?_, ?_⟩ <;> simp [hterm]
    · rw [if_neg hterm]
      simp only []
      by_cases htime : (cfg.duration.getD 30 + 5) * 60 < now - st
      · rw [if_pos htime]
        refine ⟨?_, ?_, ?_⟩ <;> simp [hterm, htime] <;> omega
      · rw [if_neg htime]
        cases hla : p.last_activity with
        | none => refine ⟨?_, ?_, ?_⟩ <;> simp [hterm, htime]
        | some t =>
          simp only []
          by_cases hidle : 10 * 60 < now - t
          · rw [if_pos hidle]
            refine ⟨?_, ?_, ?_⟩ <;> simp [hterm, htime, hidle] <;> omega
          · rw [if_neg hidle]
            refine ⟨?_, ?_, ?_⟩ <;> simp [hterm, htime, hidle]
  refine ⟨hmain.1, hmain.2.1, hmain.2.2, ?_⟩
  intro c a cq r now2 st2 text hq ht hrecent
  have hl := evaluate_response_accepted_last_activity c r a cq text hq ht
  refine ⟨hl, ?_⟩
  unfold monitor_tick
  split_ifs with h1
  · decide
  · simp only []
    split_ifs with h2
    · decide
    · rw [hl]
      simp only []
      rw [if_neg (by omega)]
      decide

/-- Witness for C9: with a 30-minute configured duration, a tick at 2200
seconds fires the timeout conclusion, and a tick at 2100 seconds with the
last response 1100 seconds old fires the inactivity conclusion. -/
theorem C9_monitor_policy_witness :
    monitor_tick cfg0 2200 0 a_questioning.progress = MonitorAction.timeout_conclude
    ∧ monitor_tick cfg0 2100 0 { a_evaluating.progress with last_activity := some 1000 }
        = MonitorAction.inactivity_conclude :=
  ⟨(C9_monitor_policy cfg0 2200 0 a_questioning.progress).2.1.mpr
      ⟨by decide, by decide⟩,
   (C9_monitor_policy cfg0 2100 0
        { a_evaluating.progress with last_activity := some 1000 }).2.2.1.mpr
      ⟨by decide, by decide, 1000, rfl, by decide⟩⟩

/-- Claim C10: along every operation sequence from construction, as long
as no response has been accepted the `last_activity` field stays `none`
(it is `none` at construction), and a monitor tick never triggers the
inactivity conclusion while `last_activity` is `none` — only the overall
duration timeout can end such a session. -/
theorem C10_no_inactivity_without_response :
    init_agent.progress.last_activity = none
    ∧ (∀ (s : Settings) (cfg : InterviewConfig) (c : Collaborators) (ops : List Op),
        (runOps s cfg c ops init_agent).progress.responses_received = [] →
        (runOps s cfg c ops init_agent).progress.last_activity = none)
    ∧ (∀ (cfg : InterviewConfig) (now st : Nat) (p : InterviewProgress),
        p.last_activity = none →
        monitor_tick cfg now st p ≠ MonitorAction.inactivity_conclude) := by
  refine ⟨rfl, ?_, ?_⟩
  · intro s cfg c ops
    exact (runOps_core_inv s cfg c ops init_agent init_core_inv).2.2
  · intro cfg now st p h
    unfold monitor_tick
    split_ifs with h1
    · decide
    · simp only []
      split_ifs with h2
      · decide
      · rw [h]
        simp only []
        decide

/-- Witness for C10: a session that was started, asked a question and gave
a hint (but received no response) still has no `last_activity`, and even a
tick far past the inactivity threshold does not trigger the inactivity
conclusion on a response-less questioning session. -/
theorem C10_no_inactivity_without_response_witness :
    (runOps s0 cfg0 demo_collab [Op.start 0, Op.ask 10, Op.hint] init_agent).progress.last_activity
      = none
    ∧ monitor_tick cfg0 100000 0 a_questioning.progress ≠ MonitorAction.inactivity_conclude :=
  ⟨C10_no_inactivity_without_response.2.1 s0 cfg0 demo_collab
      [Op.start 0, Op.ask 10, Op.hint] (by decide),
   C10_no_inactivity_without_response.2.2 cfg0 100000 0 a_questioning.progress (by decide)⟩

end TTS
